import Mathlib

/-!
# VillageOS media-generation queue: a shallow embedding

This file embeds the media-generation job queue of the VillageOS
repository and proves the spec's testable properties against it.

Sources embedded:
* `src/repositories/mediaGenerationQueueRepository.ts` — the job store
  (Prisma table accesses become pure transformations of a `List Job`);
* `src/services/mediaGenerationQueueService.ts` — the worker
  (`processNextJob`, the single-flight guard, retry/terminal branching);
* `src/services/schedulerService.ts` — the cron wiring, together with the
  construction site in `src/main.ts`;
* `src/services/commandProcessorService.ts` — the two `asyncWork`
  producers (`generateVillageShowImage`, `generateTwoStepPlantBaseline`).

Times are epoch milliseconds (`Int`); `Date.now()` becomes an explicit
`now` argument.  Each `await`ed external call is an explicit input of
type `Except String _` (the promise either fulfills or rejects with an
error message).
-/

namespace VillageOS

/-- `enum JobStatus` of the Prisma schema, as used by the repository. -/
inductive JobStatus where
  | PENDING
  | PROCESSING
  | RETRYING
  | COMPLETED
  | FAILED
deriving DecidableEq, Repr

/-- `enum JobType`; the values branched on by the service. -/
inductive JobType where
  | ACTION_IMAGE
  | BASELINE
  | VILLAGE_BASELINE
  | OBJECT_BASELINE
deriving DecidableEq, Repr

/-- A row of the `MediaGenerationQueue` table.  String ids become `Nat`. -/
structure Job where
  id : Nat
  userId : Nat
  command : String
  prompt : String
  jobType : JobType
  status : JobStatus
  priority : Int
  attempts : Nat
  maxAttempts : Nat
  scheduledAt : Int
  parentJobId : Option Nat
  result : Option String
  error : Option String
  createdAt : Int
  completedAt : Option Int
deriving DecidableEq, Repr

/-- `QueueJobInput` of `mediaGenerationQueueRepository.ts`; optional
fields keep their TS defaulting (`priority || 0`, `jobType ||
'ACTION_IMAGE'`, `scheduledAt || new Date()`). -/
structure QueueJobInput where
  userId : Nat
  command : String
  prompt : String
  priority : Option Int
  parentJobId : Option Nat
  jobType : Option JobType
  scheduledAt : Option Int
deriving DecidableEq, Repr

def msPerMinute : Int := 60 * 1000

/-- `findUnique(\x7b where: \x7b id \x7d \x7d)`: the row under a primary key. -/
def rowOf (db : List Job) (cid : Nat) : Option Job :=
  db.find? (fun j => j.id == cid)

/-- The Prisma relation filter `parentJob: \x7b status: 'COMPLETED' \x7d`:
the referenced parent row exists and is COMPLETED. -/
def parentCompleted (db : List Job) (pid : Nat) : Bool :=
  match rowOf db pid with
  | some q => q.status == JobStatus.COMPLETED
  | none => false

/-- The `where` clause of `getNextPendingJobWithDependencies`:
`status = PENDING`, `scheduledAt <= now`, and no parent or a COMPLETED
parent. -/
def eligibleWithDeps (db : List Job) (now : Int) (j : Job) : Bool :=
  j.status == JobStatus.PENDING && decide (j.scheduledAt ≤ now) &&
    (match j.parentJobId with
     | none => true
     | some pid => parentCompleted db pid)

/-- `orderBy [priority desc, createdAt asc]`: `a` sorts strictly before
`b`. -/
def jobBefore (a b : Job) : Bool :=
  decide (b.priority < a.priority) ||
    (a.priority == b.priority && decide (a.createdAt < b.createdAt))

/-- `findFirst` under the above ordering: the strict-order minimum of the
filtered rows, keeping the earlier row on full ties. -/
def selectFirst : List Job → Option Job
  | [] => none
  | j :: rest =>
    match selectFirst rest with
    | none => some j
    | some k => if jobBefore k j then some k else some j

/-- `getNextPendingJobWithDependencies` (repository lines 110-133). -/
def getNextPendingJobWithDependencies (db : List Job) (now : Int) : Option Job :=
  selectFirst (db.filter (eligibleWithDeps db now))

/-- `getNextPendingJob` (repository lines 20-31): the dependency-unaware
query, same status/due filter and ordering. -/
def getNextPendingJob (db : List Job) (now : Int) : Option Job :=
  selectFirst (db.filter (fun j =>
    j.status == JobStatus.PENDING && decide (j.scheduledAt ≤ now)))

/-- `enqueue` (repository lines 34-47): inserts a PENDING row.  `id` is
the store-generated primary key.  The `attempts`/`maxAttempts` columns
come from schema defaults; the Prisma schema file is absent from the
sources. Modelled from the spec: `attempts` starts at 0 and
`maxAttempts` defaults to 3 ("Enqueue job A (maxAttempts=3)"). -/
def enqueue (db : List Job) (inp : QueueJobInput) (id : Nat) (now : Int) :
    List Job × Job :=
  let job : Job :=
    { id := id
      userId := inp.userId
      command := inp.command
      prompt := inp.prompt
      jobType := inp.jobType.getD JobType.ACTION_IMAGE
      status := JobStatus.PENDING
      priority := inp.priority.getD 0
      attempts := 0
      maxAttempts := 3
      scheduledAt := inp.scheduledAt.getD now
      parentJobId := inp.parentJobId
      result := none
      error := none
      createdAt := now
      completedAt := none }
  (db ++ [job], job)

/-- `updateJobStatus` (repository lines 50-65).  A `none` for
`result`/`error` models the TS `undefined`, which Prisma treats as "leave
the column unchanged"; `completedAt` is written only on the two terminal
statuses. -/
def updateJobStatus (db : List Job) (jobId : Nat) (status : JobStatus)
    (result : Option String) (error : Option String) (now : Int) : List Job :=
  db.map fun j =>
    if j.id == jobId then
      { j with
        status := status
        result := if result.isSome then result else j.result
        error := if error.isSome then error else j.error
        completedAt :=
          if status == JobStatus.COMPLETED || status == JobStatus.FAILED then
            some now
          else j.completedAt }
    else j

/-- `retryJob` (repository lines 86-107): re-fetches the row, is a no-op
when it is missing or `attempts >= maxAttempts`, otherwise sets
`RETRYING`, increments `attempts`, and delays `scheduledAt` by
`2^attempts` minutes (the attempts count *before* the increment). -/
def retryJob (db : List Job) (jobId : Nat) (now : Int) : List Job :=
  match rowOf db jobId with
  | none => db
  | some job =>
    if job.maxAttempts ≤ job.attempts then db
    else
      let backoffMinutes : Int := 2 ^ job.attempts
      let scheduledAt := now + backoffMinutes * msPerMinute
      db.map fun j =>
        if j.id == jobId then
          { j with
            status := JobStatus.RETRYING
            attempts := job.attempts + 1
            scheduledAt := scheduledAt }
        else j

/-- `markDependentJobsReady` (repository lines 144-154): for every
PENDING child of `parentJobId`, reset `scheduledAt` to now. -/
def markDependentJobsReady (db : List Job) (parentJobId : Nat) (now : Int) :
    List Job :=
  db.map fun j =>
    if j.parentJobId == some parentJobId && j.status == JobStatus.PENDING then
      { j with scheduledAt := now }
    else j

/-- `cleanupCompletedJobs` (repository lines 75-83): delete terminal rows
whose `completedAt` predates the cutoff. -/
def cleanupCompletedJobs (db : List Job) (cutoff : Int) : List Job :=
  db.filter fun j =>
    !((j.status == JobStatus.COMPLETED || j.status == JobStatus.FAILED) &&
      (match j.completedAt with
       | some t => decide (t < cutoff)
       | none => false))

/-! ## The service layer (`mediaGenerationQueueService.ts`) -/

/-- The outcome of one dispatched provider call
(`processBaselineJob`/`processMediaJob`): either the serialized result
JSON or the thrown error's message. -/
abbrev JobOutcome := Except String String

/-- The tail of `processNextJob` after the provider call settles (service
lines 74-108): on success store the result, mark COMPLETED and release
dependents; on failure either `retryJob` (when `attempts + 1 <
maxAttempts`, judged on the row as fetched) or mark FAILED with the
error message. -/
def finishJob (db : List Job) (job : Job) (outcome : JobOutcome) (now : Int) :
    List Job :=
  match outcome with
  | Except.ok resultJson =>
      markDependentJobsReady
        (updateJobStatus db job.id JobStatus.COMPLETED (some resultJson) none now)
        job.id now
  | Except.error msg =>
      if job.attempts + 1 < job.maxAttempts then
        retryJob db job.id now
      else
        updateJobStatus db job.id JobStatus.FAILED none (some msg) now

/-- The service state visible to one `processNextJob` call: the table and
the `isProcessing` flag. -/
structure QueueState where
  db : List Job
  isProcessing : Bool
deriving DecidableEq, Repr

/-- One `processNextJob` call (service lines 43-115) run from its guard
to its `finally` with **no other call interleaved** — the solo,
sequential case, used below for the single-call scenarios: no-op under
the single-flight guard, otherwise fetch the next eligible job, mark it
PROCESSING, dispatch (the environment supplies the `outcome`), and
settle it; the `finally` clears the flag.  The method's real suspension
points, and the interleavings of overlapping calls they admit, are
modelled separately by `applyMicro` below. -/
def processNextJob (s : QueueState) (outcome : Job → JobOutcome) (now : Int) :
    QueueState :=
  if s.isProcessing then s
  else
    match getNextPendingJobWithDependencies s.db now with
    | none => s
    | some job =>
      let db1 := updateJobStatus s.db job.id JobStatus.PROCESSING none none now
      { db := finishJob db1 job (outcome job) now, isProcessing := false }

/-- `new Date('2099-01-01')` in epoch milliseconds: the far-future park
used by `enqueueJobWithDependency` (service line 139) for jobs with a
parent. -/
def farFuture : Int := 4070908800000

/-- The `scheduledAt` chosen by `enqueueJobWithDependency`: parked far in
the future when a parent is declared, otherwise now. -/
def dependencyScheduledAt (parentJobId : Option Nat) (now : Int) : Int :=
  match parentJobId with
  | some _ => farFuture
  | none => now

/-- Status of the row under a primary key. -/
def statusOf (db : List Job) (cid : Nat) : Option JobStatus :=
  (rowOf db cid).map Job.status

/-! ## Interleaved semantics of overlapping `processNextJob` calls

`processNextJob` is `async`: it reads `this.isProcessing` synchronously
(line 44), then **awaits** the eligibility fetch (line 49), and only in
the continuation of that await does it set `this.isProcessing = true`
(line 54); every repository write and the provider dispatch are further
awaits, and the first finisher's `finally` (line 110) clears the flag
while other calls may still be in flight.  Calls are triggered
un-awaited from `enqueueJob`/`enqueueJobWithDependency` and from the
cron callback, so several can overlap.  The model below keeps one
continuation record per in-flight call and lets the environment
schedule which pending continuation runs next; each micro-step is one
of the method's between-awaits segments, executed atomically exactly as
the single-threaded JS runtime does. -/

/-- The continuation point of one in-flight `processNextJob` call: each
constructor is a point between two awaits of service lines 43-115,
carrying the call's local `job` snapshot (the `const job` of line 49). -/
inductive TaskPhase where
  | fetching
  | marking (job : Job)
  | calling (job : Job)
  | writingResult (job : Job) (resultJson : String)
  | releasing (job : Job)
  | failing (job : Job) (msg : String)
  | done
deriving DecidableEq, Repr

/-- The whole service under overlapping calls: the table, the shared
`isProcessing` flag, and the continuations of the spawned calls. -/
structure SystemState where
  db : List Job
  isProcessing : Bool
  tasks : List TaskPhase
deriving DecidableEq, Repr

/-- One atomic segment of the interleaved execution, chosen by the
scheduler: which call's pending continuation runs (by task index), with
the data the environment supplies at that instant. -/
inductive MicroOp where
  | enqueueRow (inp : QueueJobInput) (id : Nat) (now : Int)
  | spawn
  | fetch (t : Nat) (now : Int)
  | markProcessing (t : Nat) (now : Int)
  | provide (t : Nat) (outcome : JobOutcome)
  | writeResult (t : Nat) (now : Int)
  | release (t : Nat) (now : Int)
  | settleFailure (t : Nat) (now : Int)

/-- Run one micro-step.
* `enqueueRow`: the awaited `repository.enqueue` insert lands (a fresh
  primary key; a clashing id is refused by the store).
* `spawn`: a `processNextJob` call arrives (the un-awaited call in the
  enqueue paths, or the cron callback).  Its synchronous prefix runs at
  once: if `isProcessing` is set the call returns (line 44) and the
  task is born `done`; otherwise it issues the eligibility query
  (line 49) and suspends — the flag is *not* yet set.
* `fetch`: the awaited query of task `t` resolves against the current
  table; lines 49-54 run as one microtask: a null result returns,
  otherwise the snapshot is kept, `isProcessing` is set and the
  PROCESSING update is issued.
* `markProcessing`: task `t`'s awaited PROCESSING write (line 64) lands
  and the provider dispatch begins.
* `provide`: task `t`'s provider call settles (lines 68-72), fulfilled
  or rejected.
* `writeResult`: the awaited COMPLETED write (line 76) lands and the
  dependent release is issued.
* `release`: the awaited `markDependentJobsReady` (line 84) lands; the
  `finally` clears `isProcessing` (line 110).
* `settleFailure`: the catch branch's awaited write lands (lines
  93-103) — `retryJob` when the *snapshot's* `attempts + 1 <
  maxAttempts`, else the FAILED write; the `finally` clears the flag.
A step naming a task not at the matching continuation is a no-op. -/
def applyMicro (s : SystemState) : MicroOp → SystemState
  | MicroOp.enqueueRow inp id now =>
    if s.db.all (fun j => j.id ≠ id) then
      { s with db := (enqueue s.db inp id now).1 }
    else s
  | MicroOp.spawn =>
    if s.isProcessing then { s with tasks := s.tasks ++ [TaskPhase.done] }
    else { s with tasks := s.tasks ++ [TaskPhase.fetching] }
  | MicroOp.fetch t now =>
    match s.tasks[t]? with
    | some TaskPhase.fetching =>
      match getNextPendingJobWithDependencies s.db now with
      | none => { s with tasks := s.tasks.set t TaskPhase.done }
      | some job =>
        { s with
          isProcessing := true
          tasks := s.tasks.set t (TaskPhase.marking job) }
    | _ => s
  | MicroOp.markProcessing t now =>
    match s.tasks[t]? with
    | some (TaskPhase.marking job) =>
      { s with
        db := updateJobStatus s.db job.id JobStatus.PROCESSING none none now
        tasks := s.tasks.set t (TaskPhase.calling job) }
    | _ => s
  | MicroOp.provide t outcome =>
    match s.tasks[t]? with
    | some (TaskPhase.calling job) =>
      match outcome with
      | Except.ok r =>
        { s with tasks := s.tasks.set t (TaskPhase.writingResult job r) }
      | Except.error m =>
        { s with tasks := s.tasks.set t (TaskPhase.failing job m) }
    | _ => s
  | MicroOp.writeResult t now =>
    match s.tasks[t]? with
    | some (TaskPhase.writingResult job r) =>
      { s with
        db := updateJobStatus s.db job.id JobStatus.COMPLETED (some r) none now
        tasks := s.tasks.set t (TaskPhase.releasing job) }
    | _ => s
  | MicroOp.release t now =>
    match s.tasks[t]? with
    | some (TaskPhase.releasing job) =>
      { s with
        db := markDependentJobsReady s.db job.id now
        isProcessing := false
        tasks := s.tasks.set t TaskPhase.done }
    | _ => s
  | MicroOp.settleFailure t now =>
    match s.tasks[t]? with
    | some (TaskPhase.failing job msg) =>
      { s with
        db :=
          if job.attempts + 1 < job.maxAttempts then
            retryJob s.db job.id now
          else
            updateJobStatus s.db job.id JobStatus.FAILED none (some msg) now
        isProcessing := false
        tasks := s.tasks.set t TaskPhase.done }
    | _ => s

/-- The idle service at process start. -/
def initSystem : SystemState := { db := [], isProcessing := false, tasks := [] }

/-- Execute a schedule of micro-steps from the idle service. -/
def runMicro (ops : List MicroOp) : SystemState := ops.foldl applyMicro initSystem

/-! ## Scheduler wiring (`schedulerService.ts` together with `main.ts`)

`SchedulerService` only ever reads whether its queue-service field is
populated, so the field is modelled as an `Option Unit`. -/

/-- The stored state of `SchedulerService`: the constructor
`(gameLogic: any, queueService?: MediaGenerationQueueService)` assigns
only its *second* parameter to `this.queueService`. -/
structure SchedulerService where
  queueService : Option Unit
deriving DecidableEq, Repr

/-- The two-parameter constructor. -/
def SchedulerService.construct (gameLogic : Option Unit)
    (queueService : Option Unit) : SchedulerService :=
  { queueService := queueService }

def cronQueueProcessing : String := "*/1 * * * * *"

def cronQueueCleanup : String := "0 * * * *"

/-- `startJobs` registers the two queue cron schedules only when
`this.queueService` is populated. -/
def startJobsCrons (svc : SchedulerService) : List String :=
  if svc.queueService.isSome then [cronQueueProcessing, cronQueueCleanup]
  else []

/-- `main.ts` line 67: `new SchedulerService(queueService)` — a single
argument, so the queue service binds to the `gameLogic` parameter and
the `queueService` parameter defaults to `undefined`. -/
def mainSchedulerService : SchedulerService :=
  SchedulerService.construct (some ()) none

/-- The queue-processing cron callback (schedulerService.ts lines
24-32): return when the queue service is absent or busy, otherwise call
`processNextJob`. -/
def queueProcessingTick (svc : SchedulerService) (q : QueueState)
    (outcome : Job → JobOutcome) (now : Int) : QueueState :=
  match svc.queueService with
  | none => q
  | some _ => if q.isProcessing then q else processNextJob q outcome now

/-! ## The Result Bridge (`commandProcessorService.ts`)

The two `asyncWork` producers.  Each `await`ed collaborator call is an
explicit `Except String _` input (the promise's fulfillment or
rejection); the `try` body is the `Except`-valued computation and the
`catch` arm converts any error into the user-safe fallback. -/

structure MediaData where
  url : String
  filename : String
  caption : String
deriving DecidableEq, Repr

/-- The value delivered to the chat adapter (`AsyncWorkResult`). -/
structure AsyncWorkResult where
  mediaData : Option MediaData
  message : Option String
deriving DecidableEq, Repr

def showSuccessMsg : String := "🏘️ Here's your village!"

def showFallbackMsg : String :=
  "❌ Failed to generate village image. The village information is still available above."

def svcUnavailableMsg : String := "Village image service not available"

def reqServicesUnavailableMsg : String := "Required services not available"

def noBaselineMsg : String := "Village has no baseline image to update"

def plantFallbackMsg : String :=
  "✅ Plant added successfully! The village image will be updated shortly."

/-- Inputs of `generateVillageShowImage` (lines 312-346), with the
single awaited call's outcome. -/
structure VillageShowArgs where
  serviceAvailable : Bool
  villageName : String
  villageId : String
  memberCount : Nat
  generateVillageWithMembersImage : Except String String
deriving Repr

/-- The `try` block of `generateVillageShowImage`: the guard throw, the
awaited generation call (whose rejection propagates), and the success
payload. -/
def generateVillageShowImageTry (a : VillageShowArgs) :
    Except String AsyncWorkResult :=
  if !a.serviceAvailable then Except.error svcUnavailableMsg
  else
    match a.generateVillageWithMembersImage with
    | Except.error e => Except.error e
    | Except.ok imageUrl =>
      Except.ok
        { mediaData := some
            { url := imageUrl
              filename := "village-" ++ a.villageId ++ "-show.png"
              caption := a.villageName ++ " - Village with " ++
                toString a.memberCount ++ " members" }
          message := some showSuccessMsg }

/-- The fallback `AsyncWorkResult` of the `catch` arm. -/
def showFallback : AsyncWorkResult :=
  { mediaData := none, message := some showFallbackMsg }

/-- `generateVillageShowImage`: the promise always fulfills with the
`try` result or the fallback. -/
def generateVillageShowImage (a : VillageShowArgs) : AsyncWorkResult :=
  match generateVillageShowImageTry a with
  | Except.ok r => r
  | Except.error _ => showFallback

/-- Inputs of `generateTwoStepPlantBaseline` (lines 1097-1151), with the
outcomes of its four awaited collaborator calls. -/
structure PlantBaselineArgs where
  servicesAvailable : Bool
  villageName : String
  villageId : String
  plantDescription : String
  gridX : Int
  gridY : Int
  villageBaselineUrl : Option String
  generatePlantBaseline : Except String String
  updateObjectBaseline : Except String Unit
  updateVillageBaseline : Except String String
  saveVillageBaseline : Except String Unit
deriving Repr

/-- The `try` block of `generateTwoStepPlantBaseline`: the guard throw,
the three awaited steps plus the baseline-presence throw, and the
success payload. -/
def generateTwoStepPlantBaselineTry (a : PlantBaselineArgs) :
    Except String AsyncWorkResult :=
  if !a.servicesAvailable then Except.error reqServicesUnavailableMsg
  else
    match a.generatePlantBaseline with
    | Except.error e => Except.error e
    | Except.ok _plantBaselineUrl =>
      match a.updateObjectBaseline with
      | Except.error e => Except.error e
      | Except.ok _ =>
        if a.villageBaselineUrl.isNone then Except.error noBaselineMsg
        else
          match a.updateVillageBaseline with
          | Except.error e => Except.error e
          | Except.ok updatedVillageBaselineUrl =>
            match a.saveVillageBaseline with
            | Except.error e => Except.error e
            | Except.ok _ =>
              Except.ok
                { mediaData := some
                    { url := updatedVillageBaselineUrl
                      filename := "village-" ++ a.villageId ++ "-updated.png"
                      caption := a.villageName ++ " - Updated with " ++
                        a.plantDescription ++ " at (" ++ toString a.gridX ++
                        ", " ++ toString a.gridY ++ ")" }
                  message := some
                    ("🏘️ Your village has been updated with the new " ++
                      a.plantDescription ++ "!") }

/-- The fallback `AsyncWorkResult` of the `catch` arm. -/
def plantFallback : AsyncWorkResult :=
  { mediaData := none, message := some plantFallbackMsg }

/-- `generateTwoStepPlantBaseline`: the promise always fulfills with the
`try` result or the fallback. -/
def generateTwoStepPlantBaseline (a : PlantBaselineArgs) : AsyncWorkResult :=
  match generateTwoStepPlantBaselineTry a with
  | Except.ok r => r
  | Except.error _ => plantFallback

/-! ## Concrete sample data for the spec's scenarios -/

def waterCmd : String := "water"

def samplePrompt : String := "a watered crop"

def providerDownMsg : String := "provider down"

def resultUrlJson : String := "result-json"

/-- A freshly enqueued parentless job, as `enqueue` creates it. -/
def sampleJob (id : Nat) (priority : Int) (createdAt : Int) : Job :=
  { id := id
    userId := 1
    command := waterCmd
    prompt := samplePrompt
    jobType := JobType.ACTION_IMAGE
    status := JobStatus.PENDING
    priority := priority
    attempts := 0
    maxAttempts := 3
    scheduledAt := 0
    parentJobId := none
    result := none
    error := none
    createdAt := createdAt
    completedAt := none }

/-- A child of the job with primary key `pid`, parked far in the future
as `enqueueJobWithDependency` creates it. -/
def sampleChild (id : Nat) (pid : Nat) (createdAt : Int) : Job :=
  { sampleJob id 0 createdAt with
    parentJobId := some pid
    scheduledAt := farFuture }

/-- An always-failing provider. -/
def alwaysFailing : Job → JobOutcome := fun _ => Except.error providerDownMsg

/-- An always-succeeding provider. -/
def alwaysSucceeding : Job → JobOutcome := fun _ => Except.ok resultUrlJson

/-- The enqueue input matching `sampleJob`. -/
def sampleInput : QueueJobInput :=
  { userId := 1
    command := waterCmd
    prompt := samplePrompt
    priority := none
    parentJobId := none
    jobType := none
    scheduledAt := some 0 }

/-- The enqueue input of a parked child of job 1, as
`enqueueJobWithDependency` (service lines 135-140) builds it: the
`parentJobId` is set and `scheduledAt` is the parking date. -/
def sampleChildInput : QueueJobInput :=
  { userId := 1
    command := waterCmd
    prompt := samplePrompt
    priority := none
    parentJobId := some 1
    jobType := none
    scheduledAt := some farFuture }

/-- Two `processNextJob` calls spawned back to back while
`isProcessing` is still `false`: both pass the line-44 guard before
either line-49 fetch resolves, each fetch returns a distinct PENDING
row (the second fetch runs after the first call already marked its row
PROCESSING), and each call marks its own row. -/
def doubleProcessingSchedule : List MicroOp :=
  [MicroOp.enqueueRow sampleInput 1 0,
   MicroOp.enqueueRow sampleInput 2 1,
   MicroOp.spawn, MicroOp.spawn,
   MicroOp.fetch 0 2, MicroOp.markProcessing 0 2,
   MicroOp.fetch 1 2, MicroOp.markProcessing 1 2]

/-- The intended single-flight behaviour: the second call arrives only
after the first call's fetch continuation has set `isProcessing`, so
the line-44 guard drops it and only one row is ever marked. -/
def guardedTickSchedule : List MicroOp :=
  [MicroOp.enqueueRow sampleInput 1 0,
   MicroOp.enqueueRow sampleInput 2 1,
   MicroOp.spawn,
   MicroOp.fetch 0 2,
   MicroOp.spawn,
   MicroOp.fetch 1 2,
   MicroOp.markProcessing 0 2]

/-- Two overlapped calls fetch the same PENDING row (both fetches
resolve before either PROCESSING write): call 0 completes the job and
releases dependents; call 1's provider then fails, and its
`catch` (lines 93-103) runs `retryJob` on the now-COMPLETED row using
its stale `attempts = 0` snapshot. -/
def staleRetrySchedule : List MicroOp :=
  [MicroOp.enqueueRow sampleInput 1 0,
   MicroOp.spawn, MicroOp.spawn,
   MicroOp.fetch 0 0, MicroOp.fetch 1 0,
   MicroOp.markProcessing 0 0, MicroOp.markProcessing 1 0,
   MicroOp.provide 0 (Except.ok resultUrlJson),
   MicroOp.writeResult 0 5, MicroOp.release 0 5,
   MicroOp.provide 1 (Except.error providerDownMsg),
   MicroOp.settleFailure 1 6]

/-- One solo failing call, for contrast with `staleRetrySchedule`: the
retried row keeps `completedAt = null`. -/
def soloFailureSchedule : List MicroOp :=
  [MicroOp.enqueueRow sampleInput 1 0,
   MicroOp.spawn,
   MicroOp.fetch 0 0, MicroOp.markProcessing 0 0,
   MicroOp.provide 0 (Except.error providerDownMsg),
   MicroOp.settleFailure 0 6]

/-- Three overlapped calls all fetch job 1 before its first PROCESSING
write, so each holds an `attempts = 0` snapshot of the row; all three
providers fail. Each `catch` evaluates `job.attempts + 1 <
job.maxAttempts` as `0 + 1 < 3` and takes the `retryJob` branch, so
the row is put into RETRYING three times — the last one after its
`maxAttempts`-th failure, which the spec says must yield FAILED. -/
def tripleFailureSchedule : List MicroOp :=
  [MicroOp.enqueueRow sampleInput 1 0,
   MicroOp.spawn, MicroOp.spawn, MicroOp.spawn,
   MicroOp.fetch 0 0, MicroOp.fetch 1 0, MicroOp.fetch 2 0,
   MicroOp.markProcessing 0 0,
   MicroOp.provide 0 (Except.error providerDownMsg),
   MicroOp.settleFailure 0 1,
   MicroOp.markProcessing 1 1,
   MicroOp.provide 1 (Except.error providerDownMsg),
   MicroOp.settleFailure 1 2,
   MicroOp.markProcessing 2 2,
   MicroOp.provide 2 (Except.error providerDownMsg),
   MicroOp.settleFailure 2 3]

/-- Parent row 1 and parked child row 2. Calls 0 and 1 overlap on the
parent; call 0 completes it and releases the child; call 2 then
fetches the now-eligible child; call 1's stale failure regresses the
parent from COMPLETED to RETRYING; call 2 marks the child PROCESSING.
Final state: the child is PROCESSING while its parent is RETRYING. -/
def gatingRaceSchedule : List MicroOp :=
  [MicroOp.enqueueRow sampleInput 1 0,
   MicroOp.enqueueRow sampleChildInput 2 1,
   MicroOp.spawn, MicroOp.spawn,
   MicroOp.fetch 0 2, MicroOp.fetch 1 2,
   MicroOp.markProcessing 0 2, MicroOp.markProcessing 1 3,
   MicroOp.provide 0 (Except.ok resultUrlJson),
   MicroOp.writeResult 0 10, MicroOp.release 0 10,
   MicroOp.spawn,
   MicroOp.fetch 2 10,
   MicroOp.provide 1 (Except.error providerDownMsg),
   MicroOp.settleFailure 1 11,
   MicroOp.markProcessing 2 11]

/-- Parent row 1 and parked child row 2; calls 0 and 1 overlap on the
parent. Call 1's stale failure lands in call 0's await window between
the COMPLETED write (line 76) and `markDependentJobsReady` (line 84):
the parent ends RETRYING, yet the child's `scheduledAt` was still
reset to now — and, parent not COMPLETED, the released child is not
eligible, now or ever. -/
def releaseRaceSchedule : List MicroOp :=
  [MicroOp.enqueueRow sampleInput 1 0,
   MicroOp.enqueueRow sampleChildInput 2 1,
   MicroOp.spawn, MicroOp.spawn,
   MicroOp.fetch 0 2, MicroOp.fetch 1 2,
   MicroOp.markProcessing 0 2, MicroOp.markProcessing 1 3,
   MicroOp.provide 0 (Except.ok resultUrlJson),
   MicroOp.provide 1 (Except.error providerDownMsg),
   MicroOp.writeResult 0 10,
   MicroOp.settleFailure 1 11,
   MicroOp.release 0 12]

def sampleUrl : String := "https://img.example/one.png"

def sampleVillageName : String := "Greenfield"

def sampleVillageId : String := "v1"

def samplePlantDesc : String := "tomato plant"

def sampleShowArgs : VillageShowArgs :=
  { serviceAvailable := true
    villageName := sampleVillageName
    villageId := sampleVillageId
    memberCount := 2
    generateVillageWithMembersImage := Except.ok sampleUrl }

def failingShowArgs : VillageShowArgs :=
  { sampleShowArgs with
    generateVillageWithMembersImage := Except.error providerDownMsg }

def samplePlantArgs : PlantBaselineArgs :=
  { servicesAvailable := true
    villageName := sampleVillageName
    villageId := sampleVillageId
    plantDescription := samplePlantDesc
    gridX := 1
    gridY := 2
    villageBaselineUrl := some sampleUrl
    generatePlantBaseline := Except.ok sampleUrl
    updateObjectBaseline := Except.ok ()
    updateVillageBaseline := Except.ok sampleUrl
    saveVillageBaseline := Except.ok () }

def failingPlantArgs : PlantBaselineArgs :=
  { samplePlantArgs with
    updateVillageBaseline := Except.error providerDownMsg }

/-! ## Lemmas about the ordered selection -/

theorem jobBefore_iff {a b : Job} :
    jobBefore a b = true ↔
      (b.priority < a.priority ∨
        (a.priority = b.priority ∧ a.createdAt < b.createdAt)) := by
  simp [jobBefore, Bool.or_eq_true, Bool.and_eq_true, decide_eq_true_eq,
    beq_iff_eq]

theorem jobBefore_irrefl (a : Job) : jobBefore a a = false := by
  rw [← Bool.not_eq_true, jobBefore_iff]
  omega

theorem jobBefore_neg_trans {a b c : Job} (hba : jobBefore b a = false)
    (hcb : jobBefore c b = false) : jobBefore c a = false := by
  rw [← Bool.not_eq_true, jobBefore_iff] at hba hcb ⊢
  omega

theorem selectFirst_eq_none {l : List Job} :
    selectFirst l = none ↔ l = [] := by
  cases l with
  | nil => simp [selectFirst]
  | cons j rest =>
    simp only [selectFirst]
    cases h : selectFirst rest with
    | none => simp
    | some k =>
      constructor
      · intro hcontr
        by_cases hb : jobBefore k j = true <;> simp [hb] at hcontr
      · intro hcontr
        exact absurd hcontr (List.cons_ne_nil j rest)

theorem jobBefore_asymm {a b : Job} (h : jobBefore a b = true) :
    jobBefore b a = false := by
  rw [← Bool.not_eq_true, jobBefore_iff]
  rw [jobBefore_iff] at h
  omega

theorem selectFirst_spec {l : List Job} : ∀ {j : Job},
    selectFirst l = some j → j ∈ l ∧ ∀ k ∈ l, jobBefore k j = false := by
  induction l with
  | nil => intro j h; simp [selectFirst] at h
  | cons a rest ih =>
    intro j h
    simp only [selectFirst] at h
    cases hrest : selectFirst rest with
    | none =>
      rw [hrest] at h
      simp only [Option.some.injEq] at h
      have hnil : rest = [] := selectFirst_eq_none.mp hrest
      subst hnil
      rw [← h]
      refine ⟨List.mem_singleton_self a, ?_⟩
      intro k hk
      rw [List.mem_singleton] at hk
      rw [hk]
      exact jobBefore_irrefl a
    | some b =>
      rw [hrest] at h
      have h' : (if jobBefore b a = true then some b else some a) = some j := h
      obtain ⟨hbmem, hbbest⟩ := ih hrest
      by_cases hb : jobBefore b a = true
      · rw [if_pos hb, Option.some.injEq] at h'
        rw [← h']
        refine ⟨List.mem_cons_of_mem a hbmem, ?_⟩
        intro k hk
        rcases List.mem_cons.mp hk with hk | hk
        · subst hk; exact jobBefore_asymm hb
        · exact hbbest k hk
      · rw [if_neg hb, Option.some.injEq] at h'
        rw [← h']
        refine ⟨List.mem_cons_self a rest, ?_⟩
        intro k hk
        rcases List.mem_cons.mp hk with hk | hk
        · rw [hk]; exact jobBefore_irrefl a
        · exact jobBefore_neg_trans (Bool.not_eq_true _ ▸ hb) (hbbest k hk)

/-- The dependency-aware query returns a member row that passes the
filter and is beaten by no other row passing the filter. -/
theorem getNext_spec {db : List Job} {now : Int} {j : Job}
    (h : getNextPendingJobWithDependencies db now = some j) :
    j ∈ db ∧ eligibleWithDeps db now j = true ∧
      ∀ k ∈ db, eligibleWithDeps db now k = true → jobBefore k j = false := by
  unfold getNextPendingJobWithDependencies at h
  obtain ⟨hmem, hbest⟩ := selectFirst_spec h
  refine ⟨List.mem_of_mem_filter hmem, List.of_mem_filter hmem, ?_⟩
  intro k hk hke
  exact hbest k (List.mem_filter.mpr ⟨hk, hke⟩)

/-! ## Row lookup and uniqueness -/

theorem rowOf_spec {db : List Job} {cid : Nat} {r : Job}
    (h : rowOf db cid = some r) : r ∈ db ∧ r.id = cid := by
  refine ⟨List.mem_of_find?_eq_some h, ?_⟩
  have := List.find?_some h
  simpa using this

theorem ite_preserves_id {p : Job → Bool} {g : Job → Job}
    (hg : ∀ j, (g j).id = j.id) (j : Job) :
    (if p j then g j else j).id = j.id := by
  by_cases hp : p j = true
  · rw [if_pos hp]; exact hg j
  · rw [if_neg hp]

theorem rowOf_map_ite {db : List Job} {p : Job → Bool} {g : Job → Job}
    (hg : ∀ j, (g j).id = j.id) (cid : Nat) :
    rowOf (db.map fun j => if p j then g j else j) cid =
      (rowOf db cid).map (fun j => if p j then g j else j) := by
  unfold rowOf
  rw [List.find?_map]
  have hpred : ((fun j => j.id == cid) ∘ fun j => if p j then g j else j) =
      (fun j => j.id == cid) := by
    funext j
    show ((if p j then g j else j).id == cid) = (j.id == cid)
    rw [ite_preserves_id hg]
  rw [hpred]

theorem updateJobStatus_FAILED (db : List Job) (i : Nat) (msg : String)
    (now : Int) :
    updateJobStatus db i JobStatus.FAILED none (some msg) now =
      db.map (fun j => if j.id == i then
        { j with
          status := JobStatus.FAILED
          error := some msg
          completedAt := some now } else j) := rfl

/-! ## Computed effect of the row updates on the updated row -/

theorem retryJob_rowOf {db : List Job} {i : Nat} {w : Job}
    (hw : rowOf db i = some w) (hlt : w.attempts < w.maxAttempts) (now : Int) :
    rowOf (retryJob db i now) i =
      some { w with
        status := JobStatus.RETRYING
        attempts := w.attempts + 1
        scheduledAt := now + 2 ^ w.attempts * msPerMinute } := by
  have hwid : w.id = i := (rowOf_spec hw).2
  unfold retryJob
  have hguard : ¬ w.maxAttempts ≤ w.attempts := by omega
  simp only [hw, hguard, if_false]
  have hgid : ∀ j : Job, (({ j with
      status := JobStatus.RETRYING
      attempts := w.attempts + 1
      scheduledAt := now + 2 ^ w.attempts * msPerMinute } : Job)).id = j.id :=
    fun j => rfl
  rw [rowOf_map_ite hgid i, hw]
  simp only [Option.map_some']
  rw [if_pos (by simpa using hwid)]

theorem updateJobStatus_FAILED_rowOf {db : List Job} {i : Nat} {w : Job}
    (hw : rowOf db i = some w) (msg : String) (now : Int) :
    rowOf (updateJobStatus db i JobStatus.FAILED none (some msg) now) i =
      some { w with
        status := JobStatus.FAILED
        error := some msg
        completedAt := some now } := by
  have hwid : w.id = i := (rowOf_spec hw).2
  rw [updateJobStatus_FAILED]
  have hgid : ∀ j : Job, (({ j with
      status := JobStatus.FAILED
      error := some msg
      completedAt := some now } : Job)).id = j.id := fun j => rfl
  rw [rowOf_map_ite hgid i, hw]
  simp only [Option.map_some']
  rw [if_pos (by simpa using hwid)]

/-! ## The claims -/

/-- C1: the spec says a job with status `RETRYING`, no parent (or a
COMPLETED parent) and `scheduledAt <= now` is eligible exactly like a
`PENDING` job.  The code refutes this: after the service's own retry
transition the job is `RETRYING`, parentless and long overdue, yet
`getNextPendingJobWithDependencies` — whose filter matches `PENDING`
only — returns nothing, while the identical row with status `PENDING`
is returned.  Retried jobs are therefore never picked up again. -/
theorem c1_retrying_never_eligible :
    ((processNextJob { db := [sampleJob 1 0 0], isProcessing := false }
        alwaysFailing 0).db.map
          (fun j => (j.status, j.parentJobId, j.scheduledAt)) =
      [(JobStatus.RETRYING, none, 60000)]) ∧
    getNextPendingJobWithDependencies
      (processNextJob { db := [sampleJob 1 0 0], isProcessing := false }
        alwaysFailing 0).db 1000000 = none ∧
    getNextPendingJobWithDependencies
      [{ sampleJob 1 0 0 with scheduledAt := 60000 }] 1000000 =
      some { sampleJob 1 0 0 with scheduledAt := 60000 } := by
  refine ⟨by decide, by decide, by decide⟩

/-- C2 counterexample: with `maxAttempts = 3` and a job that always
fails, the first failure at time 0 leaves `RETRYING` with `attempts = 1`
and `scheduledAt = 60000` ms = now + 2^0 minutes — not the claimed
now + 2^1 minutes (120000 ms). -/
theorem c2_counterexample :
    ((processNextJob { db := [sampleJob 1 0 0], isProcessing := false }
        alwaysFailing 0).db.map
          (fun j => (j.status, j.attempts, j.scheduledAt)) =
      [(JobStatus.RETRYING, 1, 60000)]) ∧
    (60000 : Int) ≠ 0 + 2 ^ 1 * msPerMinute := by
  refine ⟨by decide, by decide⟩

/-- C2 amended: on the k-th failure (row fetched with
`attempts = k - 1`) with retries remaining, the failure branch sets
`RETRYING`, `attempts = k` and `scheduledAt = now + 2^(k-1)` minutes —
the backoff exponent is the attempts count *before* the increment, so
failures 1 and 2 give now+1min and now+2min; with no retries remaining
(the third failure) it sets `FAILED` with the error message stored. -/
theorem c2_backoff_amended {db : List Job} {job : Job}
    (hrow : rowOf db job.id = some job) (msg : String) (now : Int) :
    (job.attempts + 1 < job.maxAttempts →
      rowOf (finishJob db job (Except.error msg) now) job.id =
        some { job with
          status := JobStatus.RETRYING
          attempts := job.attempts + 1
          scheduledAt := now + 2 ^ job.attempts * msPerMinute }) ∧
    (¬ job.attempts + 1 < job.maxAttempts →
      rowOf (finishJob db job (Except.error msg) now) job.id =
        some { job with
          status := JobStatus.FAILED
          error := some msg
          completedAt := some now }) := by
  constructor
  · intro hlt
    simp only [finishJob]
    rw [if_pos hlt]
    exact retryJob_rowOf hrow (by omega) now
  · intro hge
    simp only [finishJob]
    rw [if_neg hge]
    exact updateJobStatus_FAILED_rowOf hrow msg now

/-- Witness for the amended C2: the first and second failures of a
`maxAttempts = 3` job delay the retry by 1 and 2 minutes. -/
theorem c2_backoff_amended_witness :
    rowOf (finishJob [sampleJob 1 0 0] (sampleJob 1 0 0)
        (Except.error providerDownMsg) 0) 1 =
      some { sampleJob 1 0 0 with
        status := JobStatus.RETRYING
        attempts := 1
        scheduledAt := 0 + 2 ^ 0 * msPerMinute } ∧
    rowOf (finishJob [{ sampleJob 1 0 0 with attempts := 1 }]
        { sampleJob 1 0 0 with attempts := 1 }
        (Except.error providerDownMsg) 100) 1 =
      some { sampleJob 1 0 0 with
        status := JobStatus.RETRYING
        attempts := 2
        scheduledAt := 100 + 2 ^ 1 * msPerMinute } ∧
    rowOf (finishJob [{ sampleJob 1 0 0 with attempts := 2 }]
        { sampleJob 1 0 0 with attempts := 2 }
        (Except.error providerDownMsg) 200) 1 =
      some { sampleJob 1 0 0 with
        status := JobStatus.FAILED
        attempts := 2
        error := some providerDownMsg
        completedAt := some 200 } :=
  ⟨(c2_backoff_amended (by decide) providerDownMsg 0).1 (by decide),
   (c2_backoff_amended (by decide) providerDownMsg 100).1 (by decide),
   (c2_backoff_amended (by decide) providerDownMsg 200).2 (by decide)⟩

/-- C5: the spec says the wired system's fixed-interval scheduler tick
invokes `processNextJob` whenever nothing is processing.  The code
refutes the wiring: `main.ts` constructs `new SchedulerService(queueService)`
with one argument, so the queue service binds to the vestigial
`gameLogic` parameter, `this.queueService` stays `undefined`, and
`startJobs` registers no queue cron at all — the periodic tick never
exists.  Passing the service in the second parameter would register both
crons, and that tick callback does invoke `processNextJob` when idle. -/
theorem c5_scheduler_never_wired :
    mainSchedulerService.queueService = none ∧
    startJobsCrons mainSchedulerService = [] ∧
    startJobsCrons (SchedulerService.construct none (some ())) =
      [cronQueueProcessing, cronQueueCleanup] ∧
    (∀ (q : QueueState) (outcome : Job → JobOutcome) (now : Int),
      queueProcessingTick (SchedulerService.construct none (some ())) q
          outcome now =
        if q.isProcessing then q else processNextJob q outcome now) := by
  refine ⟨rfl, rfl, rfl, ?_⟩
  intro q outcome now
  rfl

/-! ## C8: the Result Bridge -/

theorem showTry_ok_message {a : VillageShowArgs} {r : AsyncWorkResult}
    (h : generateVillageShowImageTry a = Except.ok r) :
    r.message.isSome = true := by
  unfold generateVillageShowImageTry at h
  split at h
  · exact Except.noConfusion h
  · split at h
    · exact Except.noConfusion h
    · cases h; rfl

theorem plantTry_ok_message {a : PlantBaselineArgs} {r : AsyncWorkResult}
    (h : generateTwoStepPlantBaselineTry a = Except.ok r) :
    r.message.isSome = true := by
  unfold generateTwoStepPlantBaselineTry at h
  by_cases h1 : (!a.servicesAvailable) = true
  · rw [if_pos h1] at h; exact Except.noConfusion h
  · rw [if_neg h1] at h
    cases hg : a.generatePlantBaseline with
    | error e => simp only [hg] at h; exact Except.noConfusion h
    | ok u =>
      simp only [hg] at h
      cases ho : a.updateObjectBaseline with
      | error e => simp only [ho] at h; exact Except.noConfusion h
      | ok unitv =>
        simp only [ho] at h
        by_cases hb : a.villageBaselineUrl.isNone = true
        · rw [if_pos hb] at h; exact Except.noConfusion h
        · rw [if_neg hb] at h
          cases hv : a.updateVillageBaseline with
          | error e => simp only [hv] at h; exact Except.noConfusion h
          | ok u2 =>
            simp only [hv] at h
            cases hs : a.saveVillageBaseline with
            | error e => simp only [hs] at h; exact Except.noConfusion h
            | ok unitv2 =>
              simp only [hs] at h
              cases h
              rfl

/-- C8: both `asyncWork` producers always resolve — to the `try` block's
result when every awaited step fulfills, and to the user-safe fallback
message when any step throws; in either case the delivered
`AsyncWorkResult` carries an optional artifact and a message (the
message is always present). -/
theorem c8_bridge_always_resolves :
    (∀ a : VillageShowArgs,
      (generateVillageShowImage a).message.isSome = true) ∧
    (∀ (a : VillageShowArgs) (e : String),
      generateVillageShowImageTry a = Except.error e →
      generateVillageShowImage a = showFallback) ∧
    (∀ (a : VillageShowArgs) (r : AsyncWorkResult),
      generateVillageShowImageTry a = Except.ok r →
      generateVillageShowImage a = r) ∧
    (∀ a : PlantBaselineArgs,
      (generateTwoStepPlantBaseline a).message.isSome = true) ∧
    (∀ (a : PlantBaselineArgs) (e : String),
      generateTwoStepPlantBaselineTry a = Except.error e →
      generateTwoStepPlantBaseline a = plantFallback) ∧
    (∀ (a : PlantBaselineArgs) (r : AsyncWorkResult),
      generateTwoStepPlantBaselineTry a = Except.ok r →
      generateTwoStepPlantBaseline a = r) := by
  refine ⟨?_, ?_, ?_, ?_, ?_, ?_⟩
  · intro a
    unfold generateVillageShowImage
    cases htry : generateVillageShowImageTry a with
    | error e => rfl
    | ok r => exact showTry_ok_message htry
  · intro a e h
    unfold generateVillageShowImage
    rw [h]
  · intro a r h
    unfold generateVillageShowImage
    rw [h]
  · intro a
    unfold generateTwoStepPlantBaseline
    cases htry : generateTwoStepPlantBaselineTry a with
    | error e => rfl
    | ok r => exact plantTry_ok_message htry
  · intro a e h
    unfold generateTwoStepPlantBaseline
    rw [h]
  · intro a r h
    unfold generateTwoStepPlantBaseline
    rw [h]

/-- Witness for C8 at concrete bridge inputs: a fulfilled generation
resolves with a message, a rejected step resolves with the fallback. -/
theorem c8_bridge_always_resolves_witness :
    (generateVillageShowImage sampleShowArgs).message.isSome = true ∧
    generateVillageShowImage failingShowArgs = showFallback ∧
    generateTwoStepPlantBaseline failingPlantArgs = plantFallback ∧
    (generateTwoStepPlantBaseline samplePlantArgs).message.isSome = true :=
  ⟨c8_bridge_always_resolves.1 sampleShowArgs,
   c8_bridge_always_resolves.2.1 failingShowArgs providerDownMsg rfl,
   c8_bridge_always_resolves.2.2.2.2.1 failingPlantArgs providerDownMsg rfl,
   c8_bridge_always_resolves.2.2.2.1 samplePlantArgs⟩

/-! ## C6: priority order with FIFO tie-break -/

theorem getNextPendingJob_spec {db : List Job} {now : Int} {j : Job}
    (h : getNextPendingJob db now = some j) :
    j ∈ db ∧
      (j.status == JobStatus.PENDING && decide (j.scheduledAt ≤ now)) = true ∧
      ∀ k ∈ db,
        (k.status == JobStatus.PENDING && decide (k.scheduledAt ≤ now)) = true →
        jobBefore k j = false := by
  unfold getNextPendingJob at h
  obtain ⟨hmem, hbest⟩ := selectFirst_spec h
  obtain ⟨hjdb, hjp⟩ := List.mem_filter.mp hmem
  refine ⟨hjdb, hjp, ?_⟩
  intro k hk hke
  exact hbest k (List.mem_filter.mpr ⟨hk, hke⟩)

/-- C6: among eligible jobs the queries pick by priority descending then
`createdAt` ascending — if A is eligible, has B's priority and was
created earlier, B is not the pick (for both queries); on the concrete
priorities [5, 10, 5] enqueued as X, Y, Z the successive picks are
Y, X, Z. -/
theorem c6_priority_fifo :
    (∀ (db : List Job) (now : Int) (a b : Job),
      a ∈ db → eligibleWithDeps db now a = true →
      a.priority = b.priority → a.createdAt < b.createdAt →
      getNextPendingJobWithDependencies db now ≠ some b) ∧
    (∀ (db : List Job) (now : Int) (a b : Job),
      a ∈ db → a.status = JobStatus.PENDING → a.scheduledAt ≤ now →
      a.priority = b.priority → a.createdAt < b.createdAt →
      getNextPendingJob db now ≠ some b) ∧
    (getNextPendingJobWithDependencies
        [sampleJob 1 5 0, sampleJob 2 10 1, sampleJob 3 5 2] 10 =
      some (sampleJob 2 10 1)) ∧
    (getNextPendingJobWithDependencies
        (processNextJob
          { db := [sampleJob 1 5 0, sampleJob 2 10 1, sampleJob 3 5 2]
            isProcessing := false } alwaysSucceeding 10).db 10 =
      some (sampleJob 1 5 0)) ∧
    (getNextPendingJobWithDependencies
        (processNextJob (processNextJob
          { db := [sampleJob 1 5 0, sampleJob 2 10 1, sampleJob 3 5 2]
            isProcessing := false } alwaysSucceeding 10)
          alwaysSucceeding 10).db 10 =
      some (sampleJob 3 5 2)) := by
  refine ⟨?_, ?_, by decide, by decide, by decide⟩
  · intro db now a b ha hael hprio hcreated hcontr
    obtain ⟨-, -, hbest⟩ := getNext_spec hcontr
    have := hbest a ha hael
    rw [← Bool.not_eq_true, jobBefore_iff] at this
    omega
  · intro db now a b ha hast hadue hprio hcreated hcontr
    obtain ⟨-, -, hbest⟩ := getNextPendingJob_spec hcontr
    have := hbest a ha (by simp [hast, hadue])
    rw [← Bool.not_eq_true, jobBefore_iff] at this
    omega

/-- Witness for C6's universal parts at a concrete state: Z (same
priority as X, created later) is not picked, for either query. -/
theorem c6_priority_fifo_witness :
    (getNextPendingJobWithDependencies
        [sampleJob 1 5 0, sampleJob 2 10 1, sampleJob 3 5 2] 10 ≠
      some (sampleJob 3 5 2)) ∧
    (getNextPendingJob
        [sampleJob 1 5 0, sampleJob 2 10 1, sampleJob 3 5 2] 10 ≠
      some (sampleJob 3 5 2)) :=
  ⟨c6_priority_fifo.1 _ 10 (sampleJob 1 5 0) (sampleJob 3 5 2)
      (by decide) (by decide) (by decide) (by decide),
   c6_priority_fifo.2.1 _ 10 (sampleJob 1 5 0) (sampleJob 3 5 2)
      (by decide) (by decide) (by decide) (by decide) (by decide)⟩

/-- C10: refuted. The claim says a `processNextJob` call arriving while
a job is PROCESSING is a no-op, so at most one job is ever PROCESSING.
But the line-44 guard reads `isProcessing` *before* the awaited line-49
fetch, and the flag is set only in the continuation (line 54): two
calls spawned in the same window both pass the guard
(`doubleProcessingSchedule`) and the reachable final state has **two**
rows PROCESSING simultaneously. The contrast schedule
(`guardedTickSchedule`), where the second call arrives after the first
fetch resolved, shows the guard working as the claim intends: exactly
one row PROCESSING. -/
theorem c10_guard_race_double_processing :
    ((runMicro doubleProcessingSchedule).db.filter
        (fun j => j.status == JobStatus.PROCESSING)).length = 2 ∧
    ((runMicro guardedTickSchedule).db.filter
        (fun j => j.status == JobStatus.PROCESSING)).length = 1 :=
  ⟨by decide, by decide⟩

/-- C9: refuted. The claim says `completedAt` is set iff the status is
COMPLETED or FAILED, and that `scheduleRetry` never sets it. Under the
double-fetch overlap (`staleRetrySchedule`) call 0 completes job 1
(writing `completedAt = 5`), then call 1's stale failure runs
`retryJob` on the COMPLETED row: `retryJob` writes status RETRYING but
does not touch `completedAt` (repository lines 60-69), so the final
reachable state has a RETRYING row with `completedAt` still set. The
solo run (`soloFailureSchedule`) shows the per-row operations
themselves respect the invariant: its RETRYING row has
`completedAt = none`. -/
theorem c9_stale_retry_keeps_completedAt :
    ((rowOf (runMicro staleRetrySchedule).db 1).map
        (fun j => (j.status, j.completedAt)) =
      some (JobStatus.RETRYING, some 5)) ∧
    ((rowOf (runMicro soloFailureSchedule).db 1).map
        (fun j => (j.status, j.completedAt)) =
      some (JobStatus.RETRYING, none)) :=
  ⟨by decide, by decide⟩

/-- C4: refuted in its reachable-state consequences. The per-row branch
itself is as claimed: `finishJob` on a row whose failure is its
`maxAttempts`-th (attempts = 2, maxAttempts = 3) yields FAILED (second
conjunct). But each overlapped call tests `job.attempts + 1 <
job.maxAttempts` on its **stale snapshot** (service line 93): in
`tripleFailureSchedule` three calls fetch the job while `attempts = 0`,
all three failures take the retry branch, and the row ends RETRYING
with `attempts = 3 = maxAttempts` — a third RETRYING transition
(claim bound: `maxAttempts - 1 = 2`) occurring on the job's
`maxAttempts`-th failure, which the claim says must yield FAILED. -/
theorem c4_stale_snapshots_exceed_retry_budget :
    ((rowOf (runMicro tripleFailureSchedule).db 1).map
        (fun j => (j.status, j.attempts, j.maxAttempts)) =
      some (JobStatus.RETRYING, 3, 3)) ∧
    (statusOf
        (finishJob [{ sampleJob 1 0 0 with attempts := 2 }]
          { sampleJob 1 0 0 with attempts := 2 }
          (Except.error providerDownMsg) 0) 1 =
      some JobStatus.FAILED) :=
  ⟨by decide, by decide⟩

/-- C3: refuted. The claim says a child is never returned by the
eligibility query and never transitions to PROCESSING while its parent
is not COMPLETED, in every reachable state. The query itself gates
correctly (third conjunct: a due child of a PENDING parent is passed
over in favour of the parent). But in `gatingRaceSchedule` call 0
completes the parent and releases the child, call 2 fetches the
now-eligible child, call 1's stale failure then regresses the parent
from COMPLETED to RETRYING, and call 2's continuation marks the child:
the reachable final state has the child PROCESSING while its parent is
RETRYING (≠ COMPLETED). -/
theorem c3_gating_race_child_processing :
    ((rowOf (runMicro gatingRaceSchedule).db 2).map
        (fun j => (j.status, j.parentJobId)) =
      some (JobStatus.PROCESSING, some 1)) ∧
    ((rowOf (runMicro gatingRaceSchedule).db 1).map Job.status =
      some JobStatus.RETRYING) ∧
    (getNextPendingJobWithDependencies
        [sampleJob 1 0 0, { sampleChild 2 1 1 with scheduledAt := 0 }] 5 =
      some (sampleJob 1 0 0)) :=
  ⟨by decide, by decide, by decide⟩

/-- C7: refuted. The claim says that immediately after a parent
transitions to COMPLETED, `markDependentJobsReady` makes each PENDING
child eligible. The COMPLETED write (line 76) and the release
(line 84) are separated by awaits: in `releaseRaceSchedule` the
overlapped call's stale failure regresses the parent to RETRYING
inside that window, after which the release still resets the child's
`scheduledAt` to now — but the child, though PENDING and due, is not
eligible (`eligibleWithDeps` is false because the parent is not
COMPLETED), and since RETRYING rows are never refetched the queue
returns no job even in the arbitrarily far future: the released child
is permanently stalled instead of eligible. -/
theorem c7_release_race_child_not_eligible :
    ((rowOf (runMicro releaseRaceSchedule).db 2).map
        (fun j => (j.status, j.scheduledAt)) =
      some (JobStatus.PENDING, 12)) ∧
    ((rowOf (runMicro releaseRaceSchedule).db 2).map
        (fun j => eligibleWithDeps (runMicro releaseRaceSchedule).db 12 j) =
      some false) ∧
    ((rowOf (runMicro releaseRaceSchedule).db 1).map Job.status =
      some JobStatus.RETRYING) ∧
    (getNextPendingJobWithDependencies (runMicro releaseRaceSchedule).db
        1000000 = none) :=
  ⟨by decide, by decide, by decide, by decide⟩

end VillageOS
